import Mathlib

/-!
# Verification of the Navi X backend (src/backend.py)

A shallow embedding of the Flask backend in `src/backend.py`.  Python's
dynamically typed JSON/form values are modelled by `PyVal`; each HTTP handler
becomes a pure function from the relevant store state and request payload to
the new state and an HTTP outcome.

A load-bearing fact of the source: unlike `Authority` (line 37), the `Bus`
class (line 61) is a plain Python class — it does NOT subclass `db.Model`
and is not a SQLAlchemy-mapped model.  Consequently every bus endpoint
crashes with an uncaught exception (HTTP 500) at its first datastore touch:

* `Bus.query.all()` in `list_buses` (line 160), `emergency_all` (line 217)
  and `generate_report` (line 226) raises
  `AttributeError: type object 'Bus' has no attribute 'query'`;
* `Bus.query.get_or_404(bus_id)` in `update_bus` (line 184) and
  `bus_action` (line 197) raises the same `AttributeError`, for every id,
  before the request payload is even read;
* in `add_bus`, the missing-name/route check (lines 173-174) runs first and
  can return a handled 400, but the success path's `db.session.add(bus)`
  (line 177) raises `UnmappedInstanceError` for the unmapped `Bus` instance,
  so no bus record is ever stored.

The handlers below embed exactly those crash paths.  The registry type
stands for the datastore's bus rows (in fact forever empty, since nothing
can insert one); the theorems quantify over arbitrary registry contents and
show the handlers never read or write them.  Machine-level details no claim
depends on (ISO-8601 rendering of timestamps, werkzeug's filename
sanitisation, the password hash) are modelled by simple stand-in functions,
clearly marked below.
-/

set_option autoImplicit false

namespace NaviX

/-- A Python value as it appears in JSON bodies, form fields and `Bus`
attributes.  Python floats are represented by rationals: the backend never
performs float arithmetic, it only stores coordinates. -/
inductive PyVal where
  | pstr (s : String)
  | pint (n : Int)
  | pfloat (q : Rat)
  | pbool (b : Bool)
  | pnone
deriving DecidableEq, Repr

/-- Python truthiness (`bool(v)`) for the values above: `None`, `""`, `0`,
`0.0` and `False` are falsy. -/
def PyVal.truthy : PyVal → Bool
  | .pstr s => !s.isEmpty
  | .pint n => n != 0
  | .pfloat q => q != 0
  | .pbool b => b
  | .pnone => false

/-- Stand-in for `datetime.isoformat()`: timestamps are abstract `Nat`s and
no claim inspects the rendered string, only which keys carry it. -/
def isoformat (t : Nat) : String := toString t

/-- A JSON object, in key order. -/
abbrev Dict : Type := List (String × PyVal)

/-- `d.get(k)` / `d[k]` on a JSON object: first binding of the key. -/
def dictGet (d : Dict) (k : String) : Option PyVal :=
  (d.find? (fun p => p.1 = k)).map (fun p => p.2)

/-- The keys of a JSON object, in order. -/
def dictKeys (d : Dict) : List String := d.map (fun p => p.1)

/-- Outcome of one HTTP handler: a success response with status code,
message and JSON value, a handled error response (`jsonify({'msg': ...}),
code`), or an uncaught Python exception (which Flask turns into a 500). -/
inductive HR (α : Type) where
  | ok (code : Nat) (msg : String) (val : α)
  | err (code : Nat) (msg : String)
  | exn (msg : String)
deriving DecidableEq, Repr

/-- Whether an outcome is a handled 400 client-error response. -/
def HR.isErr400 {α : Type} : HR α → Bool
  | .err 400 _ => true
  | _ => false

/-- A request payload: `request.get_json()` / `request.form`, as a partial
map from keys to values (`data.get(k)` is `payload k`). -/
abbrev Payload : Type := String → Option PyVal

/-! ## The Bus data model (backend.py lines 61-89) -/

/-- The `Bus` class.  A plain Python object: its attributes hold arbitrary
Python values; `updated_at` is the `datetime.utcnow()` timestamp taken at
construction, modelled as a `Nat`. -/
structure Bus where
  name : PyVal
  route : PyVal
  lat : PyVal
  lng : PyVal
  status : PyVal
  driver : PyVal
  speed : PyVal
  capacity : PyVal
  passengers : PyVal
  updated_at : Nat
deriving DecidableEq, Repr

/-- `Bus.__init__(name, route, lat, lng, status, driver, speed, capacity,
passengers)` with the construction time passed explicitly.  Call sites spell
out the Python default arguments (`lat=0.0`, `lng=0.0`, `status='On Time'`,
`driver='Unknown'`, `speed=0`, `capacity=40`, `passengers=0`). -/
def busInit (name route lat lng status driver speed capacity passengers : PyVal)
    (now : Nat) : Bus :=
  { name := name, route := route, lat := lat, lng := lng, status := status,
    driver := driver, speed := speed, capacity := capacity,
    passengers := passengers, updated_at := now }

/-- `Bus.to_dict(include_id, mongo_id)` (backend.py lines 74-89): the ten
data fields, plus an `id` key only when `include_id` is set AND a truthy
`mongo_id` was passed.  Every call site in the backend uses the defaults
`include_id=True, mongo_id=None` — though in fact no call site is ever
reached, see the handler definitions below. -/
def Bus.to_dict (b : Bus) (include_id : Bool) (mongo_id : Option Nat) : Dict :=
  let data : Dict :=
    [("name", b.name), ("route", b.route), ("lat", b.lat), ("lng", b.lng),
     ("status", b.status), ("driver", b.driver), ("speed", b.speed),
     ("capacity", b.capacity), ("passengers", b.passengers),
     ("updated_at", .pstr (isoformat b.updated_at))]
  match include_id, mongo_id with
  | true, some m => data ++ [("id", .pstr (toString m))]
  | _, _ => data

/-- The bus rows of the datastore, keyed by integer id.  In the running
program this is forever empty — `add_bus` crashes before inserting — but the
handlers are embedded over an arbitrary registry to show they neither read
nor write it. -/
abbrev Registry : Type := List (Nat × Bus)

/-- The first record with the given id, if any: what a working
`Bus.query.get(busId)` would return over `Registry`. -/
def findBus : Registry → Nat → Option Bus
  | [], _ => none
  | p :: st, busId => if p.1 = busId then some p.2 else findBus st busId

/-! ## Bus endpoints (backend.py lines 158-230)

`Bus` is not a mapped model, so each handler raises at its first
`Bus.query` / `db.session` touch; the exceptions below model the messages
of those uncaught errors. -/

/-- The `AttributeError` raised by every `Bus.query` access: `Bus`
(line 61) is a plain class with no `query` attribute. -/
def busQueryError : String :=
  "AttributeError: type object Bus has no attribute query"

/-- The SQLAlchemy error raised by `db.session.add(bus)` (line 177) on an
instance of the unmapped `Bus` class. -/
def unmappedInstanceError : String :=
  "UnmappedInstanceError: class Bus is not mapped"

/-- `GET /api/buses` (`list_buses`, lines 158-161): crashes at
`Bus.query.all()` (line 160) before rendering anything — the datastore is
untouched and no bus JSON is ever returned. -/
def list_buses (st : Registry) : Registry × HR (List Dict) :=
  (st, .exn busQueryError)

/-- `POST /api/buses` (`add_bus`, lines 163-179).  The handler reads the
payload and returns the handled 400 when name or route is missing/falsy
(lines 173-174).  On the success path it constructs the `Bus` object
(line 176, a plain in-memory object, including the optional lat/lng/driver
reads of lines 169-171) and then crashes at `db.session.add(bus)`
(line 177): no bus is ever stored and no 201 is ever returned. -/
def add_bus (st : Registry) (data : Payload) : Registry × HR Dict :=
  let name := (data "name").getD .pnone
  let route := (data "route").getD .pnone
  if !name.truthy || !route.truthy then
    (st, .err 400 "Name and route are required")
  else
    (st, .exn unmappedInstanceError)

/-- `PUT /api/buses/<bus_id>` (`update_bus`, lines 181-192): crashes at
`Bus.query.get_or_404(bus_id)` (line 184) for EVERY id, known or unknown,
before `request.get_json()` is called — the payload is never read, the
field loop of lines 187-189 never runs, and nothing is written. -/
def update_bus (st : Registry) (_busId : Nat) (_data : Payload) :
    Registry × HR Dict :=
  (st, .exn busQueryError)

/-- `POST /api/buses/<bus_id>/action` (`bus_action`, lines 194-211):
crashes at `Bus.query.get_or_404(bus_id)` (line 197) before the payload or
the action name is read; none of the action branches (including the
`int(data['passengers'])` of line 206) ever runs. -/
def bus_action (st : Registry) (_busId : Nat) (_data : Payload) :
    Registry × HR Dict :=
  (st, .exn busQueryError)

/-- `POST /api/emergency` (`emergency_all`, lines 213-221): crashes at
`Bus.query.all()` (line 217) — no status is set and no count returned. -/
def emergency_all (st : Registry) : Registry × HR Nat :=
  (st, .exn busQueryError)

/-- `GET /api/report` (`generate_report`, lines 223-230): crashes at
`Bus.query.all()` (line 226) — no report line is ever produced. -/
def generate_report (st : Registry) : Registry × HR (List String) :=
  (st, .exn busQueryError)

/-! ## Registration (backend.py lines 37-59, 92-133) -/

/-- The `Authority` model row.  `registered_at` is abstracted to a `Nat`
timestamp, as for `Bus.updated_at`. -/
structure Authority where
  id : Nat
  username : String
  email : String
  department : String
  password_hash : String
  doc_filename : Option String
  verified : Bool
  registered_at : Nat
deriving DecidableEq, Repr

/-- `Authority.to_dict` (backend.py lines 50-59). -/
def Authority.to_dict (a : Authority) : Dict :=
  [("id", .pint (a.id : Int)), ("username", .pstr a.username),
   ("email", .pstr a.email), ("department", .pstr a.department),
   ("verified", .pbool a.verified),
   ("registered_at", .pstr (isoformat a.registered_at)),
   ("doc_filename", match a.doc_filename with
     | some f => .pstr f
     | none => .pnone)]

/-- State owned by the registration path: the `Authority` table and the set
of files saved under `UPLOAD_FOLDER`, in creation order. -/
structure ServerState where
  authorities : List Authority
  files : List String
deriving DecidableEq, Repr

/-- `ALLOWED_EXTENSIONS = {'pdf', 'png', 'jpg', 'jpeg'}` (line 92). -/
def ALLOWED_EXTENSIONS : List String := ["pdf", "png", "jpg", "jpeg"]

/-- `filename.rsplit('.', 1)[1]`: the part after the last dot (meaningful
only when the name contains a dot, exactly as in `allowed_file`). -/
def afterLastDot (s : String) : String :=
  String.mk ((s.toList.reverse.takeWhile (fun c => c ≠ '.')).reverse)

/-- Python `str.lower()` restricted to ASCII, which is all the extension
check needs. -/
def lowerString (s : String) : String :=
  String.mk (s.toList.map Char.toLower)

/-- `allowed_file(filename)` (backend.py lines 94-95): the name contains a
dot and its lower-cased final extension is an allowed one. -/
def allowed_file (filename : String) : Bool :=
  filename.toList.contains '.'
    && ALLOWED_EXTENSIONS.contains (lowerString (afterLastDot filename))

/-- Stand-in for `werkzeug.utils.secure_filename`: keep ASCII alphanumerics
and `._-`, drop everything else.  No claim depends on the sanitised name,
only on whether a file was stored at all. -/
def secure_filename (s : String) : String :=
  String.mk (s.toList.filter (fun c =>
    c.isAlphanum || c = '.' || c = '_' || c = '-'))

/-- Stand-in for `werkzeug.security.generate_password_hash`; claims do not
inspect the hash. -/
def generate_password_hash (p : String) : String := "pbkdf2:" ++ p

/-- Truthiness of an optional form field / file object: absent or empty is
falsy (a werkzeug `FileStorage` is falsy exactly when its filename is
empty). -/
def strTruthy : Option String → Bool
  | some s => !s.isEmpty
  | none => false

/-- `POST /api/register` (`register_authority`, backend.py lines 100-133).
`now` is the request timestamp (used in the stored filename and the row's
`registered_at`), `freshId` the id the datastore assigns.  The checks run in
source order: missing fields, then file type, then username/email conflict;
only after all three does the handler save the file and insert the row with
`verified=True`.  (`Authority`, unlike `Bus`, IS a mapped `db.Model`, so
this endpoint really works.) -/
def register_authority (now freshId : Nat) (st : ServerState)
    (username email department password file : Option String) :
    ServerState × HR Dict :=
  if !(strTruthy username && strTruthy email && strTruthy password
      && strTruthy department && strTruthy file) then
    (st, .err 400 "Missing required fields")
  else
    let u := username.getD ""
    let e := email.getD ""
    let dpt := department.getD ""
    let pw := password.getD ""
    let fn := file.getD ""
    if !allowed_file fn then
      (st, .err 400 "File type not allowed")
    else if st.authorities.any (fun a => a.username = u || a.email = e) then
      (st, .err 400 "Username or email already registered")
    else
      let filename := secure_filename (u ++ "_" ++ toString now ++ "_" ++ fn)
      let auth : Authority :=
        { id := freshId, username := u, email := e, department := dpt,
          password_hash := generate_password_hash pw,
          doc_filename := some filename, verified := true,
          registered_at := now }
      ({ authorities := st.authorities ++ [auth],
         files := st.files ++ [filename] },
       .ok 201 "Registration successful" auth.to_dict)

/-! ## Concrete fixtures used by witnesses and counterexamples -/

/-- A bus row under id 1, used to instantiate the claims' "bus present"
preconditions: the object `Bus('X1', 'R1')` would construct at time 0.  (In
the running program the bus table can never be populated — `add_bus`
crashes before inserting — and the handlers' behavior is independent of the
registry contents, so the theorems hold for this registry as for the real,
empty one.) -/
def demoBus : Bus :=
  busInit (.pstr "X1") (.pstr "R1") (.pfloat 0) (.pfloat 0)
    (.pstr "On Time") (.pstr "New Driver") (.pint 0) (.pint 40) (.pint 0) 0

def demoReg : Registry := [(1, demoBus)]

/-- `{action: "update_passengers", passengers: v}`. -/
def passengersPayload (v : PyVal) : Payload := fun k =>
  if k = "action" then some (.pstr "update_passengers")
  else if k = "passengers" then some v
  else none

/-- `{name: "Y1"}`. -/
def namePayload : Payload := fun k =>
  if k = "name" then some (.pstr "Y1") else none

/-- `{name: "Y1", id: 99, updated_at: "2030-01-01"}`: a nine-field key plus
keys outside the field tuple of line 187. -/
def extraKeysPayload : Payload := fun k =>
  if k = "name" then some (.pstr "Y1")
  else if k = "id" then some (.pint 99)
  else if k = "updated_at" then some (.pstr "2030-01-01")
  else none

/-- `{name: n, route: r}` and nothing else. -/
def nameRoutePayload (n r : String) : Payload := fun k =>
  if k = "name" then some (.pstr n)
  else if k = "route" then some (.pstr r)
  else none

/-- The empty JSON object. -/
def emptyPayload : Payload := fun _ => none

/-- The server state after one successful registration (username `alice`,
email `a@x.com`) starting from empty stores. -/
def demoAuthState : ServerState :=
  (register_authority 0 1 { authorities := [], files := [] }
    (some "alice") (some "a@x.com") (some "ops") (some "pw")
    (some "doc.pdf")).1

/-- The key list of the dict `Bus.to_dict` builds at every (dead) call site
of the backend (`include_id=True`, `mongo_id=None`). -/
def busJsonKeys : List String :=
  ["name", "route", "lat", "lng", "status", "driver", "speed", "capacity",
   "passengers", "updated_at"]

/-! ## Claim theorems -/

theorem isEmpty_false_of_ne (s : String) (h : s ≠ "") : s.isEmpty = false := by
  cases he : s.isEmpty
  · rfl
  · exact absurd ((String.isEmpty_iff s).mp he) h

/-- C1 counterexample: with a bus row under id 1, the `update_passengers`
action with payload `"5"` does NOT set passengers (still 0) or return the
bus, and with payload `"abc"` does NOT produce a handled 400: both requests
crash with the same uncaught `AttributeError` raised at
`Bus.query.get_or_404` (line 197) before the payload is read, leaving the
registry unchanged. -/
theorem update_passengers_crash_cex :
    bus_action demoReg 1 (passengersPayload (.pstr "5"))
      = (demoReg, .exn busQueryError)
    ∧ findBus (bus_action demoReg 1 (passengersPayload (.pstr "5"))).1 1
        = some demoBus
    ∧ demoBus.passengers = .pint 0
    ∧ bus_action demoReg 1 (passengersPayload (.pstr "abc"))
      = (demoReg, .exn busQueryError)
    ∧ HR.isErr400 (bus_action demoReg 1 (passengersPayload (.pstr "abc"))).2
      = false := by
  refine ⟨rfl, by decide, rfl, rfl, rfl⟩

/-- C1 as amended: for every bus id and EVERY action payload — `"5"` and
`"abc"` alike — the action request fails with the uncaught `AttributeError`
raised at `Bus.query.get_or_404` (HTTP 500) before the payload is read, and
every bus record is left unchanged. -/
theorem bus_action_crashes_before_payload (st : Registry) (busId : Nat)
    (data : Payload) :
    bus_action st busId data = (st, .exn busQueryError) :=
  rfl

/-- C2: the code at the failing input: `GET /api/buses` raises the
`Bus.query` `AttributeError` (HTTP 500) on any datastore state and returns
no JSON at all — so no returned Bus JSON object carries an `id` field (or
any other field); and the dict `Bus.to_dict` builds at every one of the
backend's (unreachable) call sites — `include_id=True`, `mongo_id=None` —
carries exactly the ten data keys and no `id` either. -/
theorem list_buses_crashes (st : Registry) :
    list_buses st = (st, .exn busQueryError)
    ∧ ∀ b : Bus, dictKeys (b.to_dict true none) = busJsonKeys
        ∧ dictGet (b.to_dict true none) "id" = none :=
  ⟨rfl, fun _ => ⟨rfl, rfl⟩⟩

/-- C3 counterexample: the mutating request `PUT /api/buses/1
{name: "Y1"}` against a registry holding the demo bus (constructed at time
0) crashes with the `Bus.query` `AttributeError` and mutates nothing: the
record survives identically, its `updated_at` still the construction time 0
— nothing refreshes it. -/
theorem updated_at_not_refreshed_cex :
    update_bus demoReg 1 namePayload = (demoReg, .exn busQueryError)
    ∧ findBus (update_bus demoReg 1 namePayload).1 1 = some demoBus
    ∧ demoBus.updated_at = 0 := by
  refine ⟨rfl, by decide, rfl⟩

/-- C3 as amended: no mutating operation ever refreshes `updated_at`,
because none ever mutates at all: update, action dispatch and the emergency
broadcast each crash with the uncaught `Bus.query` `AttributeError` before
touching any record, so every bus record — its construction-time
`updated_at` included — survives every such request unchanged. -/
theorem no_mutation_ever (st : Registry) (busId : Nat) (p : Payload)
    (b : Bus) (h : findBus st busId = some b) :
    update_bus st busId p = (st, .exn busQueryError)
    ∧ bus_action st busId p = (st, .exn busQueryError)
    ∧ emergency_all st = (st, .exn busQueryError)
    ∧ findBus (update_bus st busId p).1 busId = some b
    ∧ findBus (bus_action st busId p).1 busId = some b
    ∧ findBus (emergency_all st).1 busId = some b :=
  ⟨rfl, rfl, rfl, h, h, h⟩

theorem no_mutation_ever_witness :
    update_bus demoReg 1 namePayload = (demoReg, .exn busQueryError)
    ∧ bus_action demoReg 1 namePayload = (demoReg, .exn busQueryError)
    ∧ emergency_all demoReg = (demoReg, .exn busQueryError)
    ∧ findBus (update_bus demoReg 1 namePayload).1 1 = some demoBus
    ∧ findBus (bus_action demoReg 1 namePayload).1 1 = some demoBus
    ∧ findBus (emergency_all demoReg).1 1 = some demoBus :=
  no_mutation_ever demoReg 1 namePayload demoBus (by decide)

/-- C4: the code at the failing input: `update_bus` crashes with the
`Bus.query` `AttributeError` (HTTP 500) for EVERY id — in particular for an
id absent from the registry, where the claim expects a handled 404 — and
the registry is unchanged.  The concrete conjuncts evaluate the failing
input: id 2, absent from the demo registry. -/
theorem update_unknown_id_500 (st : Registry) (busId : Nat)
    (data : Payload) :
    update_bus st busId data = (st, .exn busQueryError)
    ∧ findBus demoReg 2 = none
    ∧ update_bus demoReg 2 namePayload = (demoReg, .exn busQueryError)
    ∧ HR.isErr400 (update_bus demoReg 2 namePayload).2 = false :=
  ⟨rfl, by decide, rfl, rfl⟩

/-- C5: the code at the failing input: `add_bus` with the valid payload
`{name: "X1", route: "R1"}` crashes at `db.session.add(bus)` with
`UnmappedInstanceError` (HTTP 500) — no bus with the claimed defaults (or
any bus) is ever created — while the 400 half of the claim does match the
source: a payload missing name or route gets the handled 400 and adds
nothing. -/
theorem add_bus_unmapped_crash (st : Registry) :
    add_bus st (nameRoutePayload "X1" "R1") = (st, .exn unmappedInstanceError)
    ∧ add_bus st emptyPayload = (st, .err 400 "Name and route are required") :=
  ⟨rfl, rfl⟩

/-- C6: the code at the failing input: `POST /api/emergency` crashes with
the `Bus.query` `AttributeError` (HTTP 500) on every datastore state — no
bus status is set to "Emergency Stop", no count is returned, and the
registry is unchanged. -/
theorem emergency_all_crashes (st : Registry) :
    emergency_all st = (st, .exn busQueryError)
    ∧ (emergency_all st).1 = st :=
  ⟨rfl, rfl⟩

/-- C7: the code at the failing input: `GET /api/report` crashes with the
`Bus.query` `AttributeError` (HTTP 500) on every datastore state — no
report line is ever produced (and nothing is mutated). -/
theorem generate_report_crashes (st : Registry) :
    generate_report st = (st, .exn busQueryError)
    ∧ (generate_report st).1 = st :=
  ⟨rfl, rfl⟩

/-- C10: the code at the failing input: `update_bus` crashes before
`request.get_json()` is called, so it writes NO field at all — the result
is identical for every payload (extra keys such as `id` and `updated_at`
included), and every attribute of every bus record is unchanged; the
nine-field loop of lines 187-189 never runs. -/
theorem update_bus_writes_nothing (st : Registry) (busId : Nat)
    (p q : Payload) :
    update_bus st busId p = update_bus st busId q
    ∧ (update_bus st busId p).1 = st
    ∧ update_bus st busId extraKeysPayload = (st, .exn busQueryError) :=
  ⟨rfl, rfl, rfl⟩

/-- C8: a registration whose username or email is already taken (all other
fields valid, file type allowed) always fails with the HTTP 400 conflict
response and changes nothing — no Authority row and no stored file. -/
theorem duplicate_registration_conflict (now freshId : Nat)
    (st : ServerState) (u e dpt pw fn : String) (hu : u ≠ "") (he : e ≠ "")
    (hd : dpt ≠ "") (hp : pw ≠ "") (hf : allowed_file fn = true)
    (hdup : st.authorities.any (fun a => a.username = u || a.email = e)
      = true) :
    register_authority now freshId st (some u) (some e) (some dpt)
      (some pw) (some fn)
      = (st, .err 400 "Username or email already registered") := by
  have hfn : fn ≠ "" := by
    intro hx
    subst hx
    exact absurd hf (by decide)
  have eu := isEmpty_false_of_ne u hu
  have ee := isEmpty_false_of_ne e he
  have ed := isEmpty_false_of_ne dpt hd
  have ep := isEmpty_false_of_ne pw hp
  have ef := isEmpty_false_of_ne fn hfn
  simp [register_authority, strTruthy, eu, ee, ed, ep, ef, hf, hdup]

theorem duplicate_registration_conflict_witness :
    register_authority 5 2 demoAuthState (some "alice") (some "b@y.com")
      (some "ops") (some "pw2") (some "doc2.png")
      = (demoAuthState, .err 400 "Username or email already registered") :=
  duplicate_registration_conflict 5 2 demoAuthState "alice" "b@y.com" "ops"
    "pw2" "doc2.png" (by decide) (by decide) (by decide) (by decide)
    (by decide) (by decide)

/-- C9: a registration whose uploaded file name has extension `.exe` always
fails with the HTTP 400 file-type response, however valid the other fields
are, and changes nothing — no Authority row and no stored file. -/
theorem exe_upload_rejected (now freshId : Nat) (st : ServerState)
    (u e dpt pw fn : String) (hu : u ≠ "") (he : e ≠ "") (hd : dpt ≠ "")
    (hp : pw ≠ "") (hdot : fn.toList.contains '.' = true)
    (hext : lowerString (afterLastDot fn) = "exe") :
    register_authority now freshId st (some u) (some e) (some dpt)
      (some pw) (some fn)
      = (st, .err 400 "File type not allowed") := by
  have hna : allowed_file fn = false := by
    unfold allowed_file
    rw [hext]
    simp [ALLOWED_EXTENSIONS]
  have hfn : fn ≠ "" := by
    intro hx
    subst hx
    exact absurd hdot (by decide)
  have eu := isEmpty_false_of_ne u hu
  have ee := isEmpty_false_of_ne e he
  have ed := isEmpty_false_of_ne dpt hd
  have ep := isEmpty_false_of_ne pw hp
  have ef := isEmpty_false_of_ne fn hfn
  simp [register_authority, strTruthy, eu, ee, ed, ep, ef, hna]

theorem exe_upload_rejected_witness :
    register_authority 7 2 demoAuthState (some "bob") (some "b@z.com")
      (some "ops") (some "pw3") (some "virus.exe")
      = (demoAuthState, .err 400 "File type not allowed") :=
  exe_upload_rejected 7 2 demoAuthState "bob" "b@z.com" "ops" "pw3"
    "virus.exe" (by decide) (by decide) (by decide) (by decide) (by decide)
    (by decide)

end NaviX
